import Mathlib

/-!
Verification development for the binaize-optimize A/B-testing backend.

The relational store is embedded shallowly: each table is a list of rows
in insertion order, mirroring the schemas in the repository
(`rds_tables.sql` columns as exercised by `src/tests/test_variation_agent.py`
and the Persistence Gateway contract).  Fallible Python code is embedded
with `Option`/`Except`; a Python `TypeError` raised by subscripting `None`
becomes an explicit error value.
-/

namespace Binaize

/-- Row of the `events` table: `events(event_id, client_id, experiment_id,
session_id, event_name, creation_time)`, append-only, insertion order. -/
structure EventRow where
  event_id : String
  client_id : String
  experiment_id : String
  session_id : String
  event_name : String
  creation_time : String
deriving DecidableEq, Repr

/-- Row of the `variations` table: `variations(variation_id, variation_name,
client_id, experiment_id, traffic_percentage, s3_bucket_name,
s3_html_location)`, insertion order. -/
structure VariationRow where
  variation_id : String
  variation_name : String
  client_id : String
  experiment_id : String
  traffic_percentage : Int
  s3_bucket_name : Option String
  s3_html_location : Option String
deriving DecidableEq, Repr

/-- Row of the `clients` table: `clients(client_id, full_name, company_name,
hashed_password, disabled, shopify_app_api_key, shopify_app_password,
shopify_app_eg_url, shopify_app_shared_secret)`. -/
structure ClientRow where
  client_id : String
  full_name : String
  company_name : String
  hashed_password : String
  disabled : Bool
  shopify_app_api_key : Option String
  shopify_app_password : Option String
  shopify_app_eg_url : Option String
  shopify_app_shared_secret : Option String
deriving DecidableEq, Repr

/-- The relational store: one list per table, rows in insertion order
(the store-default order the SQL `select` statements observe). -/
structure Store where
  clients : List ClientRow
  variations : List VariationRow
  events : List EventRow
deriving DecidableEq, Repr

/-- Result dictionary of `VariationAgent.get_variation_id_to_recommend`,
as asserted by the test:
`{client_id: ..., experiment_id: ..., variation_id: ...}`. -/
structure AssignResult where
  client_id : String
  experiment_id : String
  variation_id : String
deriving DecidableEq, Repr

/-- Events of the store matching a `(client_id, experiment_id, session_id)`
triple, in store (insertion) order. -/
def matchingEvents (store : Store) (c e s : String) : List EventRow :=
  store.events.filter
    (fun ev => ev.client_id == c && ev.experiment_id == e && ev.session_id == s)

/-- Modelled from the spec: section 4.3 `listIds` embeds
`VariationAgent.get_variation_ids_for_client_id_and_experiment_id`, whose
body is not under `src/` (only its test is).  Returns `none` (not an empty
sequence) when zero variations exist for the pair, otherwise the sequence
of `variation_id` values in store order. -/
def get_variation_ids_for_client_id_and_experiment_id
    (store : Store) (c e : String) : Option (List String) :=
  let rows := store.variations.filter
    (fun v => v.client_id == c && v.experiment_id == e)
  if rows.isEmpty then none else some (rows.map (fun v => v.variation_id))

/-- Modelled from the spec: section 4.4 `assign` embeds
`VariationAgent.get_variation_id_to_recommend`, whose body is not under
`src/`.  The spec's step 1 restricts the sticky lookup to events with
`event_name = "served"`, but the repository's own test
(`test_get_variation_id_to_recommend`, src/tests/test_variation_agent.py
lines 90-103) pins the sticky lookup on an event whose `event_name` is
`"test_event_name"` and reads the variation from the `event_id` column, so
the embedding filters on the triple only and returns the first matching
event's `event_id`.  Falls back to the first stored variation; returns
`none` (never raises) when neither exists. -/
def get_variation_id_to_recommend
    (store : Store) (c e s : String) : Option AssignResult :=
  match matchingEvents store c e s with
  | ev :: _ => some ⟨c, e, ev.event_id⟩
  | [] =>
    match get_variation_ids_for_client_id_and_experiment_id store c e with
    | some (v :: _) => some ⟨c, e, v⟩
    | some [] => none
    | none => none

/-- Definition following the spec's words for step 1 of `assign`
(section 4.4): the sticky lookup considers only prior events whose
`event_name` equals `"served"`.  Stated only to be compared against
`get_variation_id_to_recommend`, the embedding of the code's behavior. -/
def assign_spec (store : Store) (c e s : String) : Option AssignResult :=
  match store.events.filter
      (fun ev => ev.client_id == c && ev.experiment_id == e &&
                 ev.session_id == s && ev.event_name == "served") with
  | ev :: _ => some ⟨c, e, ev.event_id⟩
  | [] =>
    match get_variation_ids_for_client_id_and_experiment_id store c e with
    | some (v :: _) => some ⟨c, e, v⟩
    | some [] => none
    | none => none

/-- Modelled from the spec: section 4.5 `recordEvent` embeds
`EventAgent.register_event_for_client`, whose body is not under `src/`.
The `events` schema (section 6) has no `variation_id` column; the
`variation_id` argument is stored in the `event_id` slot, as pinned by the
test, which reads the sticky variation back from `event_id`.  Pure append,
no deduplication. -/
def register_event_for_client
    (store : Store) (c e s variation_id event_name creation_time : String) :
    Store :=
  { store with
    events := store.events ++ [⟨variation_id, c, e, s, event_name, creation_time⟩] }

/-- Python runtime errors surfaced by the embedding: `typeError` stands for
the `TypeError` raised when the endpoint subscripts `None`. -/
inductive PyError where
  | typeError
deriving DecidableEq, Repr

/-- Embedding of the public redirection endpoint
`get_variation_id_to_redirect` (src/optimization_platform/deployment/server.py
lines 296-316): it calls `get_variation_id_to_recommend`, then subscripts
the result with `variation["variation_id"]` and records a `"served"` event
with the current UTC timestamp (passed here as `now`).  When the assign
result is `None`, the subscripting raises `TypeError` before any write, so
the store is returned unchanged. -/
def get_variation_id_to_redirect
    (store : Store) (c e s now : String) :
    Except PyError AssignResult × Store :=
  match get_variation_id_to_recommend store c e s with
  | none => (Except.error PyError.typeError, store)
  | some v =>
    (Except.ok v, register_event_for_client store c e s v.variation_id "served" now)

/-- Microseconds in one day, the resolution of Python `datetime`. -/
def microsPerDay : Int := 86400000000

/-- Microseconds in one second, for the `strftime` second-precision output. -/
def microsPerSecond : Int := 1000000

/-- Local midnight (`replace(hour=0, minute=0, second=0, microsecond=0)`) of
the local instant `t`, times in microseconds of local wall clock. -/
def floorDay (t : Int) : Int := microsPerDay * (t / microsPerDay)

/-- Embedding of `get_date_range_in_utc_str` (src/utils/date_utils.py lines
16-34) at microsecond precision.  Instants are microsecond counts; a
timezone is its fixed UTC offset in microseconds (local = UTC + offset;
`astimezone(utc)` subtracts it), which covers every case the claims reach
(pytz daylight-saving transitions are outside the embedding).  For
`i` in `0..6`, the bucket day is `now - (6-i)` days local; the bucket start
is that day's local midnight converted to UTC; the bucket end is the day at
`23:59:59.999999` local converted to UTC, except the last bucket, whose end
is the current local instant converted to UTC.  The third component is the
local calendar-day index carried by the `'%b %d'` label. -/
def get_date_range_in_utc (offset nowUtc : Int) : List (Int × Int × Int) :=
  let nowLocal := nowUtc + offset
  (List.range 7).map (fun i =>
    let date := nowLocal - ((6 - i : Nat) : Int) * microsPerDay
    let start_local := floorDay date
    let end_local := if i == 6 then nowLocal else floorDay date + (microsPerDay - 1)
    (start_local - offset, end_local - offset, date / microsPerDay))

/-- The numeric content of the strings the source emits: `strftime` with
format `'%Y-%m-%d %H:%M:%S'` truncates each boundary to whole seconds. -/
def get_date_range_in_utc_str (offset nowUtc : Int) : List (Int × Int × Int) :=
  (get_date_range_in_utc offset nowUtc).map
    (fun b => (b.1 / microsPerSecond, b.2.1 / microsPerSecond, b.2.2))

/-- Request body of the sign-up endpoint (`NewClient` in server_models). -/
structure NewClient where
  client_id : String
  full_name : String
  company_name : String
  password : String
  disabled : Bool
deriving DecidableEq, Repr

/-- Response of the sign-up endpoint (`ResponseMessage`). -/
structure ResponseMessage where
  message : String
  status : Nat
deriving DecidableEq, Repr

/-- Modelled from the spec: section 4.1 `lookup` embeds
`ClientAgent.get_client_details_for_client_id` (wrapped by `get_client` in
server.py lines 91-94), whose body is not under `src/`: a pure read
returning the client row for `client_id`, or absent. -/
def get_client (store : Store) (cid : String) : Option ClientRow :=
  store.clients.find? (fun c => c.client_id == cid)

/-- Modelled from the spec: `ClientAgent.add_new_client` (called from
server.py lines 168-171), whose body is not under `src/`: persists a new
Client row with the given hashed password; the four optional Shopify
credential fields start absent. -/
def add_new_client
    (store : Store) (cid full_name company_name hashed_password : String)
    (disabled : Bool) : Store :=
  { store with
    clients := store.clients ++
      [⟨cid, full_name, company_name, hashed_password, disabled,
        none, none, none, none⟩] }

/-- Embedding of the sign-up endpoint `sign_up_new_client` (server.py lines
149-176).  Password hashing (`get_password_hash`, bcrypt via passlib) is an
external collaborator and enters as the function parameter `hash`.  If the
`client_id` is already registered the endpoint answers 409 Conflict and
writes nothing; otherwise it hashes the password, persists the row and
answers 200. -/
def sign_up_new_client
    (hash : String → String) (store : Store) (nc : NewClient) :
    ResponseMessage × Store :=
  match get_client store nc.client_id with
  | some _ =>
    (⟨"Client_id " ++ nc.client_id ++ " is already registered.", 409⟩, store)
  | none =>
    let hashed_password := hash nc.password
    (⟨"Sign up for new client with client_id " ++ nc.client_id ++
        " is successful.", 200⟩,
     add_new_client store nc.client_id nc.full_name nc.company_name
       hashed_password nc.disabled)

/-- An HTTPException as raised by the server: status code and detail. -/
structure HTTPError where
  status_code : Nat
  detail : String
deriving DecidableEq, Repr

/-- The exception `_get_current_client` raises for a missing, invalid or
expired token (server.py lines 115-119): status 401 Unauthorized.  The
login endpoint uses the same 401 status for bad credentials (lines
189-193). -/
def credentials_exception : HTTPError :=
  ⟨401, "Could not validate credentials"⟩

/-- Embedding of `get_current_active_client` (server.py lines 131-134), the
dependency every authenticated endpoint goes through: a disabled client is
rejected with `HTTPException(status_code=400, detail="Inactive user")`;
otherwise the client passes through. -/
def get_current_active_client (current_client : ClientRow) :
    Except HTTPError ClientRow :=
  if current_client.disabled then Except.error ⟨400, "Inactive user"⟩
  else Except.ok current_client

/-! Helper lemmas shared by the claim theorems below. -/

/-- Recording an event for the same triple appends one matching row. -/
theorem matchingEvents_register
    (store : Store) (c e s vid event_name now : String) :
    matchingEvents (register_event_for_client store c e s vid event_name now) c e s
      = matchingEvents store c e s ++ [⟨vid, c, e, s, event_name, now⟩] := by
  simp [matchingEvents, register_event_for_client, List.filter_append]

/-- When a matching event exists, assign returns the first one's event_id. -/
theorem assign_of_matching_cons
    (store : Store) (c e s : String) (ev : EventRow) (tl : List EventRow)
    (h : matchingEvents store c e s = ev :: tl) :
    get_variation_id_to_recommend store c e s = some ⟨c, e, ev.event_id⟩ := by
  unfold get_variation_id_to_recommend
  rw [h]

/-- When no matching event exists, assign falls back to the variations. -/
theorem assign_of_matching_nil
    (store : Store) (c e s : String)
    (h : matchingEvents store c e s = []) :
    get_variation_id_to_recommend store c e s =
      match get_variation_ids_for_client_id_and_experiment_id store c e with
      | some (v :: _) => some ⟨c, e, v⟩
      | some [] => none
      | none => none := by
  unfold get_variation_id_to_recommend
  rw [h]

/-- C1: sticky assignment.  If `assign` returns variation `v` for a
`(client_id, experiment_id, session_id)` triple and the returned
variation_id is then recorded as a `"served"` event (as the redirection
endpoint does), a second `assign` call with the same triple returns the
same `v`. -/
theorem assign_sticky
    (store : Store) (c e s now : String) (v : AssignResult)
    (h : get_variation_id_to_recommend store c e s = some v) :
    get_variation_id_to_recommend
        (register_event_for_client store c e s v.variation_id "served" now) c e s
      = some v := by
  cases hE : matchingEvents store c e s with
  | cons ev tl =>
      have h1 := assign_of_matching_cons store c e s ev tl hE
      have h2 := assign_of_matching_cons
        (register_event_for_client store c e s v.variation_id "served" now) c e s ev
        (tl ++ [⟨v.variation_id, c, e, s, "served", now⟩])
        (by rw [matchingEvents_register, hE]; rfl)
      rw [h2]
      injection h1.symm.trans h with hv
      rw [hv]
  | nil =>
      have h1 := assign_of_matching_nil store c e s hE
      rw [h1] at h
      have h2 := assign_of_matching_cons
        (register_event_for_client store c e s v.variation_id "served" now) c e s
        ⟨v.variation_id, c, e, s, "served", now⟩ []
        (by rw [matchingEvents_register, hE]; rfl)
      rw [h2]
      split at h
      all_goals first
      | exact Option.noConfusion h
      | (injection h with hv; rw [← hv])

/-- Store for the C1 witness: one variation, no events. -/
def stickyStore : Store :=
  ⟨[], [⟨"v1", "variation one", "c1", "e1", 100, none, none⟩], []⟩

/-- Witness for C1 at a concrete store: the first call picks the only
variation, and after its served event is recorded the second call returns
the same result. -/
theorem assign_sticky_witness :
    get_variation_id_to_recommend stickyStore "c1" "e1" "s1"
      = some ⟨"c1", "e1", "v1"⟩ ∧
    get_variation_id_to_recommend
        (register_event_for_client stickyStore "c1" "e1" "s1" "v1" "served" "t0")
        "c1" "e1" "s1"
      = some ⟨"c1", "e1", "v1"⟩ :=
  ⟨rfl, assign_sticky stickyStore "c1" "e1" "s1" "t0" ⟨"c1", "e1", "v1"⟩ rfl⟩

/-- C2 (amended): the sticky-lookup step considers all prior events for the
matching `(client_id, experiment_id, session_id)` triple regardless of
`event_name`, and when one or more exist it returns the `event_id` (the
column holding the served variation_id) of the first such event in
store-default (insertion) order. -/
theorem assign_sticky_lookup_uses_all_events
    (store : Store) (c e s : String) (ev : EventRow) (tl : List EventRow)
    (h : matchingEvents store c e s = ev :: tl) :
    get_variation_id_to_recommend store c e s = some ⟨c, e, ev.event_id⟩ :=
  assign_of_matching_cons store c e s ev tl h

/-- Store mirroring the repository's test scenario: one variation
`test_variation_id` and one event for the triple whose `event_name` is
`"test_event_name"` (not `"served"`) and whose `event_id` is
`served_variation_id`. -/
def testScenarioStore : Store :=
  ⟨[],
   [⟨"test_variation_id", "test_variation_name", "test_client_id",
     "test_experiment_id", 80, some "s3_bucket_name", some "s3_html_location"⟩],
   [⟨"served_variation_id", "test_client_id", "test_experiment_id",
     "test_session_id", "test_event_name", "2020-05-27 09:15:23"⟩]⟩

/-- Witness for C2 (amended) at the test-scenario store. -/
theorem assign_sticky_lookup_uses_all_events_witness :
    matchingEvents testScenarioStore "test_client_id" "test_experiment_id"
        "test_session_id"
      = [⟨"served_variation_id", "test_client_id", "test_experiment_id",
          "test_session_id", "test_event_name", "2020-05-27 09:15:23"⟩] ∧
    get_variation_id_to_recommend testScenarioStore "test_client_id"
        "test_experiment_id" "test_session_id"
      = some ⟨"test_client_id", "test_experiment_id", "served_variation_id"⟩ :=
  ⟨rfl,
   assign_sticky_lookup_uses_all_events testScenarioStore "test_client_id"
     "test_experiment_id" "test_session_id"
     ⟨"served_variation_id", "test_client_id", "test_experiment_id",
      "test_session_id", "test_event_name", "2020-05-27 09:15:23"⟩ [] rfl⟩

/-- Counterexample to C2 as stated: in the test-scenario store no matching
event has `event_name = "served"`, yet the code's sticky lookup returns the
non-served event's `event_id`, while the definition following the spec's
words (only `"served"` events count) would return the stored variation
instead; so events with other names do determine the result. -/
theorem assign_event_name_filter_counterexample :
    (testScenarioStore.events.filter (fun ev => ev.event_name == "served")) = [] ∧
    get_variation_id_to_recommend testScenarioStore "test_client_id"
        "test_experiment_id" "test_session_id"
      = some ⟨"test_client_id", "test_experiment_id", "served_variation_id"⟩ ∧
    assign_spec testScenarioStore "test_client_id" "test_experiment_id"
        "test_session_id"
      = some ⟨"test_client_id", "test_experiment_id", "test_variation_id"⟩ ∧
    ("served_variation_id" : String) ≠ "test_variation_id" :=
  ⟨rfl, rfl, rfl, by decide⟩

/-- C3: with no prior matching event and zero variations stored for the
experiment, assign returns `none` (the embedding of Python `None`; the
function is total, so no exception is raised). -/
theorem assign_no_event_no_variation_returns_none
    (store : Store) (c e s : String)
    (hev : matchingEvents store c e s = [])
    (hvar : store.variations.filter
        (fun v => v.client_id == c && v.experiment_id == e) = []) :
    get_variation_id_to_recommend store c e s = none := by
  rw [assign_of_matching_nil store c e s hev]
  simp [get_variation_ids_for_client_id_and_experiment_id, hvar]

/-- Witness for C3 at the empty store. -/
theorem assign_no_event_no_variation_returns_none_witness :
    matchingEvents ⟨[], [], []⟩ "c1" "e1" "s1" = [] ∧
    (Store.mk [] [] []).variations.filter
        (fun v => v.client_id == "c1" && v.experiment_id == "e1") = [] ∧
    get_variation_id_to_recommend ⟨[], [], []⟩ "c1" "e1" "s1" = none :=
  ⟨rfl, rfl,
   assign_no_event_no_variation_returns_none ⟨[], [], []⟩ "c1" "e1" "s1" rfl rfl⟩

/-- C5: `assign` performs no writes itself, and the redirection endpoint,
after a successful `assign`, records exactly one `"served"` event carrying
the chosen variation_id and the current UTC timestamp as a separate step:
the endpoint's final store is the input store with that single appended
event row and nothing else changed. -/
theorem redirect_records_served_event
    (store : Store) (c e s now : String) (v : AssignResult)
    (h : get_variation_id_to_recommend store c e s = some v) :
    get_variation_id_to_redirect store c e s now =
      (Except.ok v,
       { store with
         events := store.events ++ [⟨v.variation_id, c, e, s, "served", now⟩] }) := by
  unfold get_variation_id_to_redirect
  rw [h]
  rfl

/-- Witness for C5 at a concrete store with one variation. -/
theorem redirect_records_served_event_witness :
    get_variation_id_to_recommend stickyStore "c1" "e1" "s1"
      = some ⟨"c1", "e1", "v1"⟩ ∧
    get_variation_id_to_redirect stickyStore "c1" "e1" "s1" "t0" =
      (Except.ok (⟨"c1", "e1", "v1"⟩ : AssignResult),
       { stickyStore with
         events := stickyStore.events ++ [⟨"v1", "c1", "e1", "s1", "served", "t0"⟩] }) :=
  ⟨rfl,
   redirect_records_served_event stickyStore "c1" "e1" "s1" "t0"
     ⟨"c1", "e1", "v1"⟩ rfl⟩

/-- C9: when `assign` returns an absent result, the redirection endpoint
raises `TypeError` while subscripting it (instead of returning an
absent/empty response), and no `"served"` event is recorded: the store
comes back unchanged. -/
theorem redirect_raises_on_absent_assign
    (store : Store) (c e s now : String)
    (h : get_variation_id_to_recommend store c e s = none) :
    get_variation_id_to_redirect store c e s now
      = (Except.error PyError.typeError, store) := by
  unfold get_variation_id_to_redirect
  rw [h]

/-- Witness for C9 at the empty store. -/
theorem redirect_raises_on_absent_assign_witness :
    get_variation_id_to_recommend ⟨[], [], []⟩ "c1" "e1" "s1" = none ∧
    get_variation_id_to_redirect ⟨[], [], []⟩ "c1" "e1" "s1" "t0"
      = (Except.error PyError.typeError, ⟨[], [], []⟩) :=
  ⟨rfl, redirect_raises_on_absent_assign ⟨[], [], []⟩ "c1" "e1" "s1" "t0" rfl⟩

/-- C10: the redirection endpoint stores the chosen variation_id into the
event row's `event_id` slot when recording the `"served"` event, and the
sticky lookup reads its result back from that same `event_id` column, so
every served event the endpoint records satisfies the invariant
`event_id = served variation_id`. -/
theorem served_event_stores_variation_id_in_event_id
    (store : Store) (c e s now : String) (v : AssignResult)
    (h : get_variation_id_to_recommend store c e s = some v) :
    ((get_variation_id_to_redirect store c e s now).2.events
        = store.events ++ [⟨v.variation_id, c, e, s, "served", now⟩]) ∧
    (∀ st : Store, ∀ ev : EventRow, ∀ tl : List EventRow,
        matchingEvents st c e s = ev :: tl →
        get_variation_id_to_recommend st c e s = some ⟨c, e, ev.event_id⟩) := by
  constructor
  · unfold get_variation_id_to_redirect
    rw [h]
    rfl
  · intro st ev tl hM
    exact assign_of_matching_cons st c e s ev tl hM

/-- Witness for C10 at a concrete store with one variation. -/
theorem served_event_stores_variation_id_in_event_id_witness :
    get_variation_id_to_recommend stickyStore "c1" "e1" "s1"
      = some ⟨"c1", "e1", "v1"⟩ ∧
    (get_variation_id_to_redirect stickyStore "c1" "e1" "s1" "t0").2.events
      = stickyStore.events ++ [⟨"v1", "c1", "e1", "s1", "served", "t0"⟩] :=
  ⟨rfl,
   (served_event_stores_variation_id_in_event_id stickyStore "c1" "e1" "s1" "t0"
     ⟨"c1", "e1", "v1"⟩ rfl).1⟩

/-- C6: registering a fresh client_id succeeds with status 200 and persists
the client row with the hashed password (and absent Shopify credentials);
an immediately repeated registration of the same client_id answers 409
Conflict and leaves the store unchanged (no overwrite). -/
theorem sign_up_fresh_then_conflict
    (hash : String → String) (store : Store) (nc : NewClient)
    (h : get_client store nc.client_id = none) :
    (sign_up_new_client hash store nc).1.status = 200 ∧
    get_client (sign_up_new_client hash store nc).2 nc.client_id
      = some ⟨nc.client_id, nc.full_name, nc.company_name, hash nc.password,
              nc.disabled, none, none, none, none⟩ ∧
    (sign_up_new_client hash (sign_up_new_client hash store nc).2 nc).1.status
      = 409 ∧
    (sign_up_new_client hash (sign_up_new_client hash store nc).2 nc).2
      = (sign_up_new_client hash store nc).2 := by
  have hstep : sign_up_new_client hash store nc =
      (⟨"Sign up for new client with client_id " ++ nc.client_id ++
          " is successful.", 200⟩,
       add_new_client store nc.client_id nc.full_name nc.company_name
         (hash nc.password) nc.disabled) := by
    unfold sign_up_new_client
    rw [h]
  have hfind : get_client (add_new_client store nc.client_id nc.full_name
        nc.company_name (hash nc.password) nc.disabled) nc.client_id
      = some ⟨nc.client_id, nc.full_name, nc.company_name, hash nc.password,
              nc.disabled, none, none, none, none⟩ := by
    unfold get_client at h
    show List.find? (fun cl => cl.client_id == nc.client_id)
        (store.clients ++
          [⟨nc.client_id, nc.full_name, nc.company_name, hash nc.password,
            nc.disabled, none, none, none, none⟩]) = _
    rw [List.find?_append, h]
    simp
  rw [hstep]
  refine ⟨rfl, hfind, ?_, ?_⟩
  · show (sign_up_new_client hash (add_new_client store nc.client_id
      nc.full_name nc.company_name (hash nc.password) nc.disabled) nc).1.status
      = 409
    unfold sign_up_new_client
    rw [hfind]
  · show (sign_up_new_client hash (add_new_client store nc.client_id
      nc.full_name nc.company_name (hash nc.password) nc.disabled) nc).2
      = add_new_client store nc.client_id nc.full_name nc.company_name
          (hash nc.password) nc.disabled
    unfold sign_up_new_client
    rw [hfind]

/-- Hash used by the C6 witness, standing in for the bcrypt collaborator. -/
def witnessHash (p : String) : String := "hashed " ++ p

/-- New-client request used by the C6 witness. -/
def witnessNewClient : NewClient :=
  ⟨"a@x.com", "Ada X", "XCo", "pw1", false⟩

/-- Witness for C6 at the empty store. -/
theorem sign_up_fresh_then_conflict_witness :
    get_client ⟨[], [], []⟩ "a@x.com" = none ∧
    ((sign_up_new_client witnessHash ⟨[], [], []⟩ witnessNewClient).1.status = 200 ∧
     get_client (sign_up_new_client witnessHash ⟨[], [], []⟩ witnessNewClient).2
         "a@x.com"
       = some ⟨"a@x.com", "Ada X", "XCo", witnessHash "pw1",
               false, none, none, none, none⟩ ∧
     (sign_up_new_client witnessHash
         (sign_up_new_client witnessHash ⟨[], [], []⟩ witnessNewClient).2
         witnessNewClient).1.status = 409 ∧
     (sign_up_new_client witnessHash
         (sign_up_new_client witnessHash ⟨[], [], []⟩ witnessNewClient).2
         witnessNewClient).2
       = (sign_up_new_client witnessHash ⟨[], [], []⟩ witnessNewClient).2) :=
  ⟨rfl, sign_up_fresh_then_conflict witnessHash ⟨[], [], []⟩ witnessNewClient rfl⟩

/-- C8 (amended): every authenticated request on behalf of a disabled
account fails (it never succeeds), but with status 400 `"Inactive user"`,
which is a different status from the 401 Unauthorized used for bad
credentials and missing/invalid/expired tokens. -/
theorem disabled_client_always_rejected
    (c : ClientRow) (h : c.disabled = true) :
    get_current_active_client c = Except.error ⟨400, "Inactive user"⟩ ∧
    (∀ r : ClientRow, get_current_active_client c ≠ Except.ok r) ∧
    credentials_exception.status_code = 401 := by
  refine ⟨?_, ?_, rfl⟩
  · unfold get_current_active_client
    rw [h]
    rfl
  · intro r
    unfold get_current_active_client
    rw [h]
    simp

/-- Disabled client used by the C8 witness and counterexample. -/
def disabledClient : ClientRow :=
  ⟨"d@x.com", "Dee X", "XCo", "hp", true, none, none, none, none⟩

/-- Witness for C8 (amended) at a concrete disabled client. -/
theorem disabled_client_always_rejected_witness :
    disabledClient.disabled = true ∧
    (get_current_active_client disabledClient
        = Except.error ⟨400, "Inactive user"⟩ ∧
     (∀ r : ClientRow, get_current_active_client disabledClient ≠ Except.ok r) ∧
     credentials_exception.status_code = 401) :=
  ⟨rfl, disabled_client_always_rejected disabledClient rfl⟩

/-- Counterexample to C8 as stated: a disabled account is rejected with
status 400, not with the 401 status class every other authentication
failure (bad credentials, missing/invalid/expired token) uses. -/
theorem disabled_client_status_counterexample :
    get_current_active_client disabledClient
      = Except.error ⟨400, "Inactive user"⟩ ∧
    (400 : Nat) ≠ credentials_exception.status_code :=
  ⟨rfl, by decide⟩

/-- Modelled from the spec: section 4.3 `create` embeds
`VariationAgent.create_variation_for_client_id_and_experiment_id`, whose
body is not under `src/` (only its test is).  The generated identifier is
external randomness and enters as the `variation_id` argument; the two
deployment fields start absent, as the creation test asserts. -/
def create_variation_for_client_id_and_experiment_id
    (store : Store) (c e variation_id variation_name : String)
    (traffic_percentage : Int) : Store :=
  { store with
    variations := store.variations ++
      [⟨variation_id, variation_name, c, e, traffic_percentage, none, none⟩] }

/-- Creation of a batch of variations for one (client, experiment) pair:
one `create` call per `(variation_id, variation_name, traffic_percentage)`
triple, in order. -/
def createVariations (store : Store) (c e : String)
    (specs : List (String × String × Int)) : Store :=
  specs.foldl
    (fun st p =>
      create_variation_for_client_id_and_experiment_id st c e p.1 p.2.1 p.2.2)
    store

/-- The batch creation appends exactly one row per requested variation. -/
theorem createVariations_variations (store : Store) (c e : String)
    (specs : List (String × String × Int)) :
    (createVariations store c e specs).variations
      = store.variations ++
        specs.map (fun p => ⟨p.1, p.2.1, c, e, p.2.2, none, none⟩) := by
  induction specs generalizing store with
  | nil => simp [createVariations]
  | cons p ps ih =>
      show (createVariations
          (create_variation_for_client_id_and_experiment_id store c e p.1 p.2.1 p.2.2)
          c e ps).variations = _
      rw [ih]
      simp [create_variation_for_client_id_and_experiment_id]

/-- Rows created for the pair all survive the pair's filter. -/
theorem filter_created_rows (c e : String)
    (specs : List (String × String × Int)) :
    ((specs.map
        (fun p => (⟨p.1, p.2.1, c, e, p.2.2, none, none⟩ : VariationRow))).filter
        (fun v => v.client_id == c && v.experiment_id == e))
      = specs.map (fun p => ⟨p.1, p.2.1, c, e, p.2.2, none, none⟩) := by
  induction specs with
  | nil => rfl
  | cons p ps ih => simp [ih]

/-- C7: `listIds` returns an absent value (`none`, not an empty sequence)
when zero variations exist for the `(client_id, experiment_id)` pair, and
after N variations have been created for the pair it returns a collection
of length N. -/
theorem listIds_absent_then_counts
    (store : Store) (c e : String) (specs : List (String × String × Int))
    (h : store.variations.filter
        (fun v => v.client_id == c && v.experiment_id == e) = [])
    (hne : specs ≠ []) :
    get_variation_ids_for_client_id_and_experiment_id store c e = none ∧
    ∃ l : List String,
      get_variation_ids_for_client_id_and_experiment_id
          (createVariations store c e specs) c e = some l ∧
      l.length = specs.length := by
  have hfilter : (createVariations store c e specs).variations.filter
      (fun v => v.client_id == c && v.experiment_id == e)
      = specs.map (fun p => ⟨p.1, p.2.1, c, e, p.2.2, none, none⟩) := by
    rw [createVariations_variations, List.filter_append, h, filter_created_rows]
    rfl
  constructor
  · simp [get_variation_ids_for_client_id_and_experiment_id, h]
  · refine ⟨(specs.map
        (fun p => (⟨p.1, p.2.1, c, e, p.2.2, none, none⟩ : VariationRow))).map
        (fun v => v.variation_id), ?_, ?_⟩
    · unfold get_variation_ids_for_client_id_and_experiment_id
      rw [hfilter, if_neg]
      simp [hne]
    · simp

/-- Witness for C7 at the empty store with one created variation. -/
theorem listIds_absent_then_counts_witness :
    ((⟨[], [], []⟩ : Store).variations.filter
        (fun v => v.client_id == "c1" && v.experiment_id == "e1") = []) ∧
    ([("v1", "n1", (100 : Int))] ≠ ([] : List (String × String × Int))) ∧
    (get_variation_ids_for_client_id_and_experiment_id ⟨[], [], []⟩ "c1" "e1"
        = none ∧
     ∃ l : List String,
       get_variation_ids_for_client_id_and_experiment_id
           (createVariations ⟨[], [], []⟩ "c1" "e1" [("v1", "n1", (100 : Int))])
           "c1" "e1" = some l ∧
       l.length = [("v1", "n1", (100 : Int))].length) :=
  ⟨rfl, List.cons_ne_nil _ _,
   listIds_absent_then_counts ⟨[], [], []⟩ "c1" "e1" [("v1", "n1", (100 : Int))]
     rfl (List.cons_ne_nil _ _)⟩

/-- Shifting an instant by whole days shifts its floor-division day index. -/
theorem day_shift_ediv (t k : Int) :
    (t - k * microsPerDay) / microsPerDay = t / microsPerDay - k := by
  have h0 : microsPerDay ≠ 0 := by norm_num [microsPerDay]
  have h1 := Int.add_mul_ediv_right t (-k) h0
  rw [neg_mul] at h1
  rw [sub_eq_add_neg, h1, ← sub_eq_add_neg]

/-- Shifting an instant by whole days shifts its local midnight likewise. -/
theorem floorDay_sub_day_mul (t k : Int) :
    floorDay (t - k * microsPerDay) = floorDay t - k * microsPerDay := by
  unfold floorDay
  rw [day_shift_ediv]
  ring

/-- C4 (amended): for every timezone offset and fixed now, the date-range
generator returns exactly 7 triples, oldest first (starts strictly
increasing by one day); bucket `i` starts at the local midnight of day
`now - (6-i)` converted to UTC and ends 24 hours minus one microsecond
after its start (`23:59:59.999999` local converted to UTC), except the
last bucket, whose end is the current local instant converted to UTC
(`nowUtc`); the third component is the local calendar-day index carried by
the label. -/
theorem date_range_seven_buckets_amended (offset nowUtc : Int) :
    get_date_range_in_utc offset nowUtc =
      [ (floorDay (nowUtc + offset) - 6 * microsPerDay - offset,
         floorDay (nowUtc + offset) - 6 * microsPerDay + (microsPerDay - 1) - offset,
         (nowUtc + offset) / microsPerDay - 6),
        (floorDay (nowUtc + offset) - 5 * microsPerDay - offset,
         floorDay (nowUtc + offset) - 5 * microsPerDay + (microsPerDay - 1) - offset,
         (nowUtc + offset) / microsPerDay - 5),
        (floorDay (nowUtc + offset) - 4 * microsPerDay - offset,
         floorDay (nowUtc + offset) - 4 * microsPerDay + (microsPerDay - 1) - offset,
         (nowUtc + offset) / microsPerDay - 4),
        (floorDay (nowUtc + offset) - 3 * microsPerDay - offset,
         floorDay (nowUtc + offset) - 3 * microsPerDay + (microsPerDay - 1) - offset,
         (nowUtc + offset) / microsPerDay - 3),
        (floorDay (nowUtc + offset) - 2 * microsPerDay - offset,
         floorDay (nowUtc + offset) - 2 * microsPerDay + (microsPerDay - 1) - offset,
         (nowUtc + offset) / microsPerDay - 2),
        (floorDay (nowUtc + offset) - 1 * microsPerDay - offset,
         floorDay (nowUtc + offset) - 1 * microsPerDay + (microsPerDay - 1) - offset,
         (nowUtc + offset) / microsPerDay - 1),
        (floorDay (nowUtc + offset) - offset, nowUtc,
         (nowUtc + offset) / microsPerDay) ] ∧
    (get_date_range_in_utc offset nowUtc).length = 7 ∧
    List.Sorted (· < ·)
      ((get_date_range_in_utc offset nowUtc).map (fun b => b.1)) := by
  have hmain : get_date_range_in_utc offset nowUtc =
      [ (floorDay (nowUtc + offset) - 6 * microsPerDay - offset,
         floorDay (nowUtc + offset) - 6 * microsPerDay + (microsPerDay - 1) - offset,
         (nowUtc + offset) / microsPerDay - 6),
        (floorDay (nowUtc + offset) - 5 * microsPerDay - offset,
         floorDay (nowUtc + offset) - 5 * microsPerDay + (microsPerDay - 1) - offset,
         (nowUtc + offset) / microsPerDay - 5),
        (floorDay (nowUtc + offset) - 4 * microsPerDay - offset,
         floorDay (nowUtc + offset) - 4 * microsPerDay + (microsPerDay - 1) - offset,
         (nowUtc + offset) / microsPerDay - 4),
        (floorDay (nowUtc + offset) - 3 * microsPerDay - offset,
         floorDay (nowUtc + offset) - 3 * microsPerDay + (microsPerDay - 1) - offset,
         (nowUtc + offset) / microsPerDay - 3),
        (floorDay (nowUtc + offset) - 2 * microsPerDay - offset,
         floorDay (nowUtc + offset) - 2 * microsPerDay + (microsPerDay - 1) - offset,
         (nowUtc + offset) / microsPerDay - 2),
        (floorDay (nowUtc + offset) - 1 * microsPerDay - offset,
         floorDay (nowUtc + offset) - 1 * microsPerDay + (microsPerDay - 1) - offset,
         (nowUtc + offset) / microsPerDay - 1),
        (floorDay (nowUtc + offset) - offset, nowUtc,
         (nowUtc + offset) / microsPerDay) ] := by
    unfold get_date_range_in_utc
    norm_num [List.range_succ, floorDay_sub_day_mul, day_shift_ediv]
  refine ⟨hmain, ?_, ?_⟩
  · rw [hmain]
    rfl
  · rw [hmain]
    simp [List.sorted_cons, microsPerDay]

/-- Counterexample to C4 as stated: at offset 0 and a concrete now, every
non-final bucket's width is `microsPerDay - 1` microseconds
(`23:59:59.999999` after its start), which is not the exactly 24 hours
(`microsPerDay` microseconds) the claim asserts. -/
theorem date_range_24h_counterexample :
    ((get_date_range_in_utc 0 600000000000000).map (fun b => b.2.1 - b.1)).take 6
      = [microsPerDay - 1, microsPerDay - 1, microsPerDay - 1, microsPerDay - 1,
         microsPerDay - 1, microsPerDay - 1] ∧
    microsPerDay - 1 ≠ microsPerDay := by
  constructor
  · rfl
  · decide

end Binaize
